import Mathlib

/-!
Shallow embedding of the cable-collide FEA demo
(`src/FEA/FEA_cable_collide_1_solution.cpp`) over exact rational arithmetic.

The file under `src/` is the setup of a Project Chrono scene: it builds a
cable of ANCF beam elements inside a mesh, constrains its ends, configures
the solver and the integrator, and then steps the system.  The physics
engine itself (ChSystem, ChMesh, the solver) is an external library that is
not part of this repository, so its lifecycle semantics (topology locking
at `SetupInitial`, DOF-offset assignment, rejection of degenerate
elements) are modelled from the specification where noted; everything the
demo itself decides (which objects are built, with which parameters, in
which order) is translated directly from the source.

Scalars use `Q`, an exact rational type whose operations are built only
from kernel-reducible `Nat`/`Int` primitives, so that every concrete run
of the embedded program can be checked by `decide`.
-/

set_option maxRecDepth 8000

/-- Euclidean gcd driven by explicit fuel, so that it reduces inside the
kernel; with fuel at least `b` it computes the gcd of `a` and `b`. -/
def gcdFuel : Nat → Nat → Nat → Nat
  | 0, a, _ => a
  | fuel + 1, a, b => if b = 0 then a else gcdFuel fuel b (a % b)

/-- Exact rational scalar: numerator and positive denominator, kept in
lowest terms by the normalizing constructor `Q.norm` (every arithmetic
operation goes through it, so equality of reachable values is plain
structural equality). -/
structure Q where
  num : Int
  den : Nat
  deriving DecidableEq, Repr

/-- Normalizing constructor: moves the sign to the numerator and divides
out the gcd; a zero denominator (never produced by the embedded program)
falls back to 0. -/
def Q.norm (n d : Int) : Q :=
  if d = 0 then ⟨0, 1⟩
  else
    let sn : Int := if d < 0 then -n else n
    let dn : Nat := d.natAbs
    let g : Nat := gcdFuel (dn + 1) sn.natAbs dn
    let na : Nat := sn.natAbs / g
    ⟨if sn < 0 then -(na : Int) else (na : Int), dn / g⟩

/-- Rational addition. -/
def Q.add (a b : Q) : Q :=
  Q.norm (a.num * b.den + b.num * a.den) ((a.den : Int) * b.den)

/-- Rational subtraction. -/
def Q.sub (a b : Q) : Q :=
  Q.norm (a.num * b.den - b.num * a.den) ((a.den : Int) * b.den)

/-- Rational multiplication. -/
def Q.mul (a b : Q) : Q :=
  Q.norm (a.num * b.num) ((a.den : Int) * b.den)

/-- Rational division. -/
def Q.div (a b : Q) : Q :=
  Q.norm (a.num * b.den) ((a.den : Int) * b.num)

/-- Rational negation. -/
def Q.neg (a : Q) : Q := ⟨-a.num, a.den⟩

/-- Embedding of an integer. -/
def Q.ofInt (n : Int) : Q := ⟨n, 1⟩

instance : Add Q := ⟨Q.add⟩

instance : Sub Q := ⟨Q.sub⟩

instance : Mul Q := ⟨Q.mul⟩

instance : Div Q := ⟨Q.div⟩

instance : Neg Q := ⟨Q.neg⟩

instance (n : Nat) : OfNat Q n := ⟨Q.ofInt n⟩

instance : NatCast Q := ⟨fun n => Q.ofInt n⟩

instance : IntCast Q := ⟨Q.ofInt⟩

instance : LT Q := ⟨fun a b => a.num * (b.den : Int) < b.num * (a.den : Int)⟩

instance : LE Q := ⟨fun a b => a.num * (b.den : Int) ≤ b.num * (a.den : Int)⟩

instance (a b : Q) : Decidable (a < b) :=
  inferInstanceAs (Decidable (a.num * (b.den : Int) < b.num * (a.den : Int)))

instance (a b : Q) : Decidable (a ≤ b) :=
  inferInstanceAs (Decidable (a.num * (b.den : Int) ≤ b.num * (a.den : Int)))

/-- 3D vector with exact rational components, embedding Chrono's `ChVector<>`. -/
structure ChVector where
  x : Q
  y : Q
  z : Q
  deriving DecidableEq, Repr

/-- Componentwise vector addition, embedding `ChVector::operator+`. -/
def ChVector.add (a b : ChVector) : ChVector :=
  ⟨a.x + b.x, a.y + b.y, a.z + b.z⟩

/-- Componentwise vector subtraction, embedding `ChVector::operator-`. -/
def ChVector.sub (a b : ChVector) : ChVector :=
  ⟨a.x - b.x, a.y - b.y, a.z - b.z⟩

/-- The zero vector. -/
def ChVector.zero : ChVector := ⟨0, 0, 0⟩

/-- FEA node of class `ChNodeFEAxyzD`: 6 coordinates, a position and a
tangent direction (3 scalars each). -/
structure ChNodeFEAxyzD where
  pos : ChVector
  dir : ChVector
  deriving DecidableEq, Repr

/-- Beam section descriptor, embedding `ChBeamSectionCable`: diameter,
Young's modulus and Rayleigh damping coefficient, set by the source's
`SetDiameter`, `SetYoungModulus`, `SetBeamRaleyghDamping` calls. -/
structure ChBeamSectionCable where
  diameter : Q
  youngModulus : Q
  raleyghDamping : Q
  deriving DecidableEq, Repr

/-- Cable element, embedding `ChElementCableANCF`: an ordered pair of node
references (as indices into the mesh's node arena, per the spec's design
note on arena storage) plus a reference into the section store
(`SetSection` shares the section by reference, so the element stores the
index of the shared descriptor, not a copy). -/
structure ChElementCableANCF where
  nodeA : Nat
  nodeB : Nat
  secRef : Nat
  deriving DecidableEq, Repr

/-- Collision/visual shape of a body: the plain `ChBody` truss has none;
`ChBodyEasyCylinder` carries radius, height and density. -/
inductive BodyShape where
  | none
  | cylinder (radius height density : Q)
  deriving DecidableEq, Repr

/-- Rigid body, embedding `ChBody` / `ChBodyEasyCylinder`: pose position,
the `SetBodyFixed` flag, the shape, and the two `ChBodyEasyCylinder`
constructor flags (collide, visualize). -/
structure ChBody where
  pos : ChVector
  bodyFixed : Bool
  shape : BodyShape
  doCollide : Bool
  doVisualize : Bool
  deriving DecidableEq, Repr

/-- Point-to-frame link, embedding `ChLinkPointFrame`: binds the node with
index `node` (into the mesh's node arena) to the body with index `body`
(into the system's body list). -/
structure ChLinkPointFrame where
  node : Nat
  body : Nat
  deriving DecidableEq, Repr

/-- FEA mesh, embedding `ChMesh`: owns the nodes and the elements. -/
structure ChMesh where
  nodes : List ChNodeFEAxyzD
  elements : List ChElementCableANCF
  deriving DecidableEq, Repr

/-- Error taxonomy of the spec that is relevant to construction-time and
lifecycle checks. -/
inductive SimError where
  | invalidGeometry
  | invalidTopology
  deriving DecidableEq, Repr

/-- Physical system, embedding `ChSystemNSC`: gravity, the mesh, the rigid
bodies, the links, plus the lifecycle bookkeeping (`finalized` flag and
global DOF offsets) that `SetupInitial` maintains. -/
structure ChSystem where
  gravity : ChVector
  mesh : ChMesh
  bodies : List ChBody
  links : List ChLinkPointFrame
  finalized : Bool
  dofOffsets : List Nat
  stepCount : Nat
  deriving DecidableEq, Repr

/-- A node of class `ChNodeFEAxyzD` carries 6 scalar DOFs (3 position +
3 direction-rate), per the spec's data model. -/
def nodeDofCount : Nat := 6

/-- Modelled from the spec: a fixed body contributes zero DOFs to the
global system (infinite-mass anchor); a free body contributes its 6 pose
DOFs.  The engine's body DOF bookkeeping is not in this repository. -/
def bodyDofCount (b : ChBody) : Nat :=
  if b.bodyFixed then 0 else 6

/-- Modelled from the spec: `finalize()` assigns global DOF offsets by
scanning nodes first, then bodies, accumulating each entity's DOF count.
The engine's `SetupInitial` implementation is not in this repository. -/
def computeDofOffsets (m : ChMesh) (bs : List ChBody) : List Nat :=
  let counts := m.nodes.map (fun _ => nodeDofCount) ++ bs.map bodyDofCount
  (counts.foldl (fun (acc : List Nat × Nat) c => (acc.1 ++ [acc.2], acc.2 + c)) ([], 0)).1

/-- Operations the demo performs on the system: the topology additions,
the single `SetupInitial` call, and the per-frame `DoStep`. -/
inductive Op where
  | addNode (n : ChNodeFEAxyzD)
  | addElement (e : ChElementCableANCF)
  | addBody (b : ChBody)
  | addLink (c : ChLinkPointFrame)
  | setupInitial
  | doStep
  deriving DecidableEq, Repr

/-- An operation that mutates the topology (adds a node, element, body or
link), as opposed to finalization or stepping. -/
def isMutationOp : Op → Bool
  | .addNode _ => true
  | .addElement _ => true
  | .addBody _ => true
  | .addLink _ => true
  | .setupInitial => false
  | .doStep => false

/-- Recognizer for the finalize operation. -/
def isSetupInitialOp : Op → Bool
  | .setupInitial => true
  | _ => false

/-- Recognizer for node additions. -/
def isAddNodeOp : Op → Bool
  | .addNode _ => true
  | _ => false

/-- Modelled from the spec where the engine decides: topology mutation
after finalize is an `InvalidTopology` error with no state change
(spec section 3, System lifecycle, and section 7), and constructing an
element whose two nodes have coincident positions is an `InvalidGeometry`
error that leaves the mesh unmodified (spec sections 4.1 and 7).
`setupInitial` records the DOF offsets and locks the topology; `doStep`
advances the step counter (the numeric integration itself is out of scope
for the claims below). -/
def applyOp (s : ChSystem) (op : Op) : Except SimError ChSystem :=
  match op with
  | .addNode n =>
      if s.finalized then .error .invalidTopology
      else .ok { s with mesh := { s.mesh with nodes := s.mesh.nodes ++ [n] } }
  | .addElement e =>
      if s.finalized then .error .invalidTopology
      else
        match s.mesh.nodes.get? e.nodeA, s.mesh.nodes.get? e.nodeB with
        | some na, some nb =>
            if na.pos = nb.pos then .error .invalidGeometry
            else .ok { s with mesh := { s.mesh with elements := s.mesh.elements ++ [e] } }
        | _, _ => .error .invalidTopology
  | .addBody b =>
      if s.finalized then .error .invalidTopology
      else .ok { s with bodies := s.bodies ++ [b] }
  | .addLink c =>
      if s.finalized then .error .invalidTopology
      else .ok { s with links := s.links ++ [c] }
  | .setupInitial =>
      .ok { s with finalized := true, dofOffsets := computeDofOffsets s.mesh s.bodies }
  | .doStep =>
      .ok { s with stepCount := s.stepCount + 1 }

/-- Total runner for a single operation: on error the state is kept
unchanged (the spec's rejection policy: rejected, no state change). -/
def applyOpTotal (s : ChSystem) (op : Op) : ChSystem :=
  match applyOp s op with
  | .ok t => t
  | .error _ => s

/-- Run a list of operations, stopping at the first error. -/
def runOps (s : ChSystem) : List Op → Except SimError ChSystem
  | [] => .ok s
  | op :: rest =>
      match applyOp s op with
      | .ok t => runOps t rest
      | .error e => .error e

/-- Gravity vector set by `system.Set_G_acc(ChVector<>(0, -9.81, 0))`. -/
def gravityAcc : ChVector := ⟨0, -981/100, 0⟩

/-- The beam section built at step 3 of the source: diameter 0.01,
Young's modulus 0.01e9 = 1e7, Rayleigh damping 0.01. -/
def beam_material : ChBeamSectionCable :=
  { diameter := 1/100
    youngModulus := 10000000
    raleyghDamping := 1/100 }

/-- The section store: the demo allocates exactly one shared
`ChBeamSectionCable`; every element's `secRef` points at index 0 here. -/
def sectionStore : List ChBeamSectionCable := [beam_material]

/-- Beam length in meters (the source's local variable `length`, 1.2). -/
def beamLength : Q := 12/10

/-- Number of nodes (the source's `N_nodes`). -/
def N_nodes : Nat := 16

/-- Position of the i-th node, translated from the node loop:
`ChVector<>(length * (in / double(N_nodes - 1)), 0.5, 0)`. -/
def nodePosition (i : Nat) : ChVector :=
  ⟨beamLength * ((i : Q) / ((N_nodes : Q) - 1)), 1/2, 0⟩

/-- Direction of every node, translated from `ChVector<> direction(1.0, 0, 0)`. -/
def nodeDirection : ChVector := ⟨1, 0, 0⟩

/-- The auxiliary `beam_nodes` vector: the 16 nodes created by the loop at
step 4 of the source, in creation order. -/
def beam_nodes : List ChNodeFEAxyzD :=
  (List.range N_nodes).map (fun i => ⟨nodePosition i, nodeDirection⟩)

/-- The elements created by the loop at step 5 of the source: element `ie`
connects `beam_nodes[ie]` and `beam_nodes[ie + 1]` (node arena indices)
and shares the single section (store index 0). -/
def beam_elements : List ChElementCableANCF :=
  (List.range (N_nodes - 1)).map (fun ie => ⟨ie, ie + 1, 0⟩)

/-- The fixed `truss` body of step 6: plain `ChBody`, `SetBodyFixed(true)`,
default pose at the origin, no easy-body shape. -/
def truss : ChBody :=
  { pos := ChVector.zero
    bodyFixed := true
    shape := .none
    doCollide := false
    doVisualize := false }

/-- The `ChBodyEasyCylinder` of exercise 1a: radius 0.02, height 0.1,
density 1000, collide and visualize both true; then moved to the end of
the beam by `SetPos(beam_nodes.back()->GetPos() + ChVector<>(0, -0.05, 0))`. -/
def cylinder : ChBody :=
  { pos := (beam_nodes.getLastD ⟨ChVector.zero, ChVector.zero⟩).pos.add ⟨0, -5/100, 0⟩
    bodyFixed := false
    shape := .cylinder (2/100) (1/10) 1000
    doCollide := true
    doVisualize := true }

/-- The `constraint_pos` link: binds `beam_nodes[0]` (node index 0) to the
truss, which is the first body added to the system (body index 0). -/
def constraint_pos : ChLinkPointFrame := ⟨0, 0⟩

/-- The `constraint_cyl` link of exercise 1b: binds `beam_nodes.back()`
(node index 15) to the cylinder, the second body added (body index 1). -/
def constraint_cyl : ChLinkPointFrame := ⟨N_nodes - 1, 1⟩

/-- The system as constructed before any `Add` call: gravity already set
(step 1 of the source), everything else empty and not finalized. -/
def initialSystem : ChSystem :=
  { gravity := gravityAcc
    mesh := { nodes := [], elements := [] }
    bodies := []
    links := []
    finalized := false
    dofOffsets := []
    stepCount := 0 }

/-- The topology additions of `main`, in source order: the 16 nodes
(step 4), the 15 elements (step 5), the truss and its link (step 6), the
cylinder and its link (exercises 1a/1b). -/
def addOps : List Op :=
  beam_nodes.map Op.addNode
    ++ beam_elements.map Op.addElement
    ++ [Op.addBody truss, Op.addLink constraint_pos,
        Op.addBody cylinder, Op.addLink constraint_cyl]

/-- The full setup phase of `main`: all additions, then the single
`system.SetupInitial()` call at line 274. -/
def setupOps : List Op := addOps ++ [Op.setupInitial]

/-- The whole run of `main` with `n` iterations of the render loop, each
of which calls `application.DoStep()`. -/
def programOps (n : Nat) : List Op := setupOps ++ List.replicate n Op.doStep

/-- Outcome of executing the setup phase. -/
def buildResult : Except SimError ChSystem := runOps initialSystem setupOps

/-- The system state after the setup phase (the build succeeds, as proved
below, so the fallback default is never taken). -/
def builtSystem : ChSystem := buildResult.toOption.getD initialSystem

/-- Boolean success recognizer for a build outcome. -/
def buildOk : Except SimError ChSystem → Bool
  | .ok _ => true
  | .error _ => false

/-- Decidable equality of build outcomes, so that concrete runs of the
setup phase can be checked by evaluation. -/
instance exceptDecEq {ε α : Type} [DecidableEq ε] [DecidableEq α] :
    DecidableEq (Except ε α) := fun x y =>
  match x, y with
  | .ok a, .ok b =>
      if h : a = b then .isTrue (by rw [h])
      else .isFalse (fun hc => h (Except.ok.inj hc))
  | .error a, .error b =>
      if h : a = b then .isTrue (by rw [h])
      else .isFalse (fun hc => h (Except.error.inj hc))
  | .ok _, .error _ => .isFalse (fun hc => Except.noConfusion hc)
  | .error _, .ok _ => .isFalse (fun hc => Except.noConfusion hc)

/-- Solver type selector (`ChSolver::Type`); the demo switches from the
default SOR to MINRES. -/
inductive SolverType where
  | SOR
  | MINRES
  deriving DecidableEq, Repr

/-- Timestepper selector (`ChTimestepper::Type`); the demo uses the
linearized implicit Euler scheme (the HHT alternative is commented out). -/
inductive TimestepperType where
  | EULER_IMPLICIT_LINEARIZED
  | HHT
  deriving DecidableEq, Repr

/-- Solver/integrator configuration surface, embedding the setter calls of
steps 8 and 10 of the source. -/
structure SimConfig where
  gravity : ChVector
  solverType : SolverType
  warmStarting : Bool
  maxItersSolverSpeed : Nat
  maxItersSolverStab : Nat
  tolForce : Q
  timestepperType : TimestepperType
  timestep : Q
  deriving DecidableEq, Repr

/-- The configuration the demo installs: `Set_G_acc(0,-9.81,0)` (line 57),
`SetSolverType(MINRES)`, `SetSolverWarmStarting(true)`,
`SetMaxItersSolverSpeed(200)`, `SetMaxItersSolverStab(200)`,
`SetTolForce(1e-10)` (lines 234-238),
`SetTimestepperType(EULER_IMPLICIT_LINEARIZED)` (line 241), and
`application.SetTimestep(0.01)` (line 270). -/
def programConfig : SimConfig :=
  { gravity := gravityAcc
    solverType := .MINRES
    warmStarting := true
    maxItersSolverSpeed := 200
    maxItersSolverStab := 200
    tolForce := 1/10000000000
    timestepperType := .EULER_IMPLICIT_LINEARIZED
    timestep := 1/100 }

/-- World-space center of the top face of a cylinder-shaped body: the body
pose position raised by half the cylinder height (for a shapeless body,
the pose position itself). -/
def topFaceCenter (b : ChBody) : ChVector :=
  match b.shape with
  | .cylinder _ h _ => b.pos.add ⟨0, h / 2, 0⟩
  | .none => b.pos

/-- Modelled from the spec (section 4.2): the point-to-frame constraint's
violation is the node position minus the anchor point transformed to
world.  The engine's `ChLinkPointFrame` is not in this repository. -/
def linkViolation (nodePos anchorWorld : ChVector) : ChVector :=
  nodePos.sub anchorWorld

/-- Local indices of a `ChNodeFEAxyzD` node's position DOFs. -/
def posDofIdxs : List Nat := [0, 1, 2]

/-- Local indices of a `ChNodeFEAxyzD` node's direction (tangent) DOFs. -/
def dirDofIdxs : List Nat := [3, 4, 5]

/-- Modelled from the spec (section 3, Constraint): a `ChLinkPointFrame`
link contributes 3 scalar position-matching equations, so it constrains
exactly the node's 3 position DOFs, identified here as global DOF indices
(the node's offset plus each local position-DOF index). -/
def linkConstrainedGlobalDofs (s : ChSystem) (c : ChLinkPointFrame) : List Nat :=
  posDofIdxs.map (fun d => s.dofOffsets.getD c.node 0 + d)

/-- Modelled from the source's comment at lines 145-147: fixing the node
outright with `SetFixed(true)` would fix the direction too, i.e. it would
constrain all 6 of the node's DOFs. -/
def fixedNodeGlobalDofs (s : ChSystem) (n : Nat) : List Nat :=
  (posDofIdxs ++ dirDofIdxs).map (fun d => s.dofOffsets.getD n 0 + d)

/-- All global DOF indices constrained by the system's links. -/
def constrainedGlobalDofs (s : ChSystem) : List Nat :=
  s.links.flatMap (linkConstrainedGlobalDofs s)

/-- The i-th operation of the setup phase sees only nodes registered by
earlier operations: when it is an element addition, both node indices are
below the count `k` of node additions that precede it. -/
def elemNodesRegisteredAt (k : Nat) : Op → Bool
  | .addElement e => decide (e.nodeA < k) && decide (e.nodeB < k)
  | _ => true

/-- Formalization of the claim that the free end (node `N_nodes - 1`) has
no attached body: no link of the system references it. -/
def freeEndUnattached (s : ChSystem) : Prop :=
  ∀ c ∈ s.links, c.node ≠ N_nodes - 1

/-- A small system whose mesh holds two nodes with coincident positions,
used to exhibit the zero-length-element rejection. -/
def degenerateMeshSystem : ChSystem :=
  { initialSystem with
      mesh := { nodes := [⟨⟨0, 0, 0⟩, ⟨1, 0, 0⟩⟩, ⟨⟨0, 0, 0⟩, ⟨0, 1, 0⟩⟩]
                elements := [] } }

/-- C1: the claim as stated is false on the code: it asserts the free end
has no attached body, but the demo attaches the cylinder to the last node
through `constraint_cyl` (lines 192-194 of the source). -/
theorem C1_free_end_unattached_counterexample : ¬ freeEndUnattached builtSystem := by
  unfold freeEndUnattached
  decide

/-- C1 (amended): the program builds the spec's end-to-end cable scenario
(16 nodes spanning 1.2 m, diameter 0.01 m, Young's modulus 1e7 Pa, node 0
constrained to a fixed ground body) except that the free end is attached
to a non-fixed cylinder body through a point-to-frame link. -/
theorem C1_scenario_amended :
    builtSystem.mesh.nodes = beam_nodes ∧
    beam_nodes.length = 16 ∧
    nodePosition 0 = ⟨0, 1/2, 0⟩ ∧
    nodePosition (N_nodes - 1) = ⟨12/10, 1/2, 0⟩ ∧
    beam_material.diameter = 1/100 ∧
    beam_material.youngModulus = 10000000 ∧
    builtSystem.mesh.elements = beam_elements ∧
    constraint_pos ∈ builtSystem.links ∧
    constraint_pos.node = 0 ∧
    (builtSystem.bodies.getD constraint_pos.body truss).bodyFixed = true ∧
    constraint_cyl ∈ builtSystem.links ∧
    constraint_cyl.node = N_nodes - 1 ∧
    builtSystem.bodies.getD constraint_cyl.body truss = cylinder ∧
    cylinder.bodyFixed = false := by
  decide

/-- C2: the installed configuration is exactly the spec's recognized
defaults: gravity (0,-9.81,0), timestep 0.01 s, iteration caps 200, force
tolerance 1e-10, linearized-implicit-Euler integrator, warm starting on. -/
theorem C2_recognized_defaults :
    programConfig.gravity = ⟨0, -981/100, 0⟩ ∧
    builtSystem.gravity = programConfig.gravity ∧
    programConfig.timestep = 1/100 ∧
    programConfig.maxItersSolverSpeed = 200 ∧
    programConfig.maxItersSolverStab = 200 ∧
    programConfig.tolForce = 1/10000000000 ∧
    programConfig.timestepperType = TimestepperType.EULER_IMPLICIT_LINEARIZED ∧
    programConfig.warmStarting = true := by
  decide

/-- C3: in every run of the program the trace splits as mutations, then
the single finalize, then only steps; and in the modelled lifecycle a
topology mutation on a finalized system is an `InvalidTopology` error
leaving the state unchanged, while no successful operation ever clears
the finalized flag. -/
theorem C3_topology_locked_by_finalize :
    (∀ n : Nat, ∃ pre post : List Op,
      programOps n = pre ++ Op.setupInitial :: post ∧
      (∀ op ∈ pre, isMutationOp op = true) ∧
      (∀ op ∈ post, op = Op.doStep) ∧
      Op.setupInitial ∉ pre ∧
      Op.setupInitial ∉ post) ∧
    (∀ (s : ChSystem) (op : Op), s.finalized = true → isMutationOp op = true →
      applyOp s op = Except.error SimError.invalidTopology ∧ applyOpTotal s op = s) ∧
    (∀ (s t : ChSystem) (op : Op), applyOp s op = Except.ok t →
      s.finalized = true → t.finalized = true) := by
  refine ⟨?_, ?_, ?_⟩
  · intro n
    refine ⟨addOps, List.replicate n Op.doStep, ?_, by decide, ?_, by decide, ?_⟩
    · simp [programOps, setupOps]
    · intro op h
      exact List.eq_of_mem_replicate h
    · intro h
      exact absurd (List.eq_of_mem_replicate h) (by decide)
  · intro s op hf hm
    cases op with
    | addNode n => exact ⟨by simp [applyOp, hf], by simp [applyOpTotal, applyOp, hf]⟩
    | addElement e => exact ⟨by simp [applyOp, hf], by simp [applyOpTotal, applyOp, hf]⟩
    | addBody b => exact ⟨by simp [applyOp, hf], by simp [applyOpTotal, applyOp, hf]⟩
    | addLink c => exact ⟨by simp [applyOp, hf], by simp [applyOpTotal, applyOp, hf]⟩
    | setupInitial => exact absurd hm (by decide)
    | doStep => exact absurd hm (by decide)
  · intro s t op h hf
    cases op with
    | addNode n => simp [applyOp, hf] at h
    | addElement e => simp [applyOp, hf] at h
    | addBody b => simp [applyOp, hf] at h
    | addLink c => simp [applyOp, hf] at h
    | setupInitial =>
        simp [applyOp] at h
        rw [← h]
    | doStep =>
        simp [applyOp] at h
        rw [← h]
        exact hf

/-- Closed instance of C3: adding a body to the finalized built system is
rejected with `InvalidTopology` and leaves the state unchanged. -/
theorem C3_topology_locked_by_finalize_witness :
    applyOp builtSystem (Op.addBody truss) = Except.error SimError.invalidTopology ∧
    applyOpTotal builtSystem (Op.addBody truss) = builtSystem :=
  C3_topology_locked_by_finalize.2.1 builtSystem (Op.addBody truss) (by decide) (by decide)

/-- C4: every element addition of the setup phase references only node
indices strictly below the number of node additions preceding it, and in
the built mesh every element's node indices are in range. -/
theorem C4_element_nodes_registered_first :
    ((List.range setupOps.length).all (fun i =>
      elemNodesRegisteredAt ((setupOps.take i).countP isAddNodeOp)
        (setupOps.getD i Op.doStep)) = true) ∧
    (builtSystem.mesh.elements.all (fun e =>
      decide (e.nodeA < builtSystem.mesh.nodes.length) &&
      decide (e.nodeB < builtSystem.mesh.nodes.length)) = true) := by
  decide

/-- C5: constructing an element on two coincident node positions is
rejected with `InvalidGeometry` and the state (in particular the mesh) is
left unchanged. -/
theorem C5_zero_length_rejected (s : ChSystem) (e : ChElementCableANCF)
    (na nb : ChNodeFEAxyzD)
    (hf : s.finalized = false)
    (ha : s.mesh.nodes.get? e.nodeA = some na)
    (hb : s.mesh.nodes.get? e.nodeB = some nb)
    (hpos : na.pos = nb.pos) :
    applyOp s (Op.addElement e) = Except.error SimError.invalidGeometry ∧
    applyOpTotal s (Op.addElement e) = s := by
  have ha2 : s.mesh.nodes[e.nodeA]? = some na := by simpa using ha
  have hb2 : s.mesh.nodes[e.nodeB]? = some nb := by simpa using hb
  have h1 : applyOp s (Op.addElement e) = Except.error SimError.invalidGeometry := by
    simp [applyOp, hf, ha2, hb2, hpos]
  refine ⟨h1, ?_⟩
  simp [applyOpTotal, h1]

/-- Closed instance of C5: on a concrete two-node mesh with coincident
positions, the element addition errors with `InvalidGeometry` and the
system is unchanged. -/
theorem C5_zero_length_rejected_witness :
    applyOp degenerateMeshSystem (Op.addElement ⟨0, 1, 0⟩) =
        Except.error SimError.invalidGeometry ∧
    applyOpTotal degenerateMeshSystem (Op.addElement ⟨0, 1, 0⟩) = degenerateMeshSystem :=
  C5_zero_length_rejected degenerateMeshSystem ⟨0, 1, 0⟩
    ⟨⟨0, 0, 0⟩, ⟨1, 0, 0⟩⟩ ⟨⟨0, 0, 0⟩, ⟨0, 1, 0⟩⟩ rfl rfl rfl rfl

/-- C6: all 15 elements share the single section descriptor (store index
0), whose parameters are diameter 0.01 > 0, Young's modulus 1e7 > 0 and
damping 0.01 ≥ 0. -/
theorem C6_shared_immutable_section :
    builtSystem.mesh.elements.length = 15 ∧
    (builtSystem.mesh.elements.all (fun e => e.secRef == 0)) = true ∧
    sectionStore.length = 1 ∧
    sectionStore.getD 0 beam_material = beam_material ∧
    0 < beam_material.diameter ∧
    0 < beam_material.youngModulus ∧
    0 ≤ beam_material.raleyghDamping ∧
    beam_material.diameter = 1/100 ∧
    beam_material.youngModulus = 10000000 ∧
    beam_material.raleyghDamping = 1/100 := by
  decide

/-- C7: finalize is idempotent: a second `SetupInitial` with no
intervening topology change reproduces the whole state, in particular the
same DOF offset assignment; concretely, re-finalizing the built system
leaves it unchanged. -/
theorem C7_finalize_idempotent :
    (∀ s : ChSystem,
      applyOpTotal (applyOpTotal s Op.setupInitial) Op.setupInitial =
        applyOpTotal s Op.setupInitial) ∧
    applyOpTotal builtSystem Op.setupInitial = builtSystem := by
  refine ⟨fun s => rfl, by decide⟩

/-- C8: consecutive node positions are distinct, spaced exactly
1.2/15 = 0.08 m apart along x at y = 0.5, z = 0, so the setup build
succeeds and in particular never reaches the `InvalidGeometry` branch. -/
theorem C8_elements_nonzero_length :
    ((List.range (N_nodes - 1)).all (fun ie =>
      decide (nodePosition ie ≠ nodePosition (ie + 1)) &&
      decide ((nodePosition (ie + 1)).x - (nodePosition ie).x = beamLength / 15) &&
      decide ((nodePosition ie).y = 1/2) &&
      decide ((nodePosition ie).z = 0)) = true) ∧
    beamLength / 15 = 2/25 ∧
    buildResult = Except.ok builtSystem ∧
    buildOk buildResult = true := by
  decide

/-- C9: the cylinder's center sits exactly half its height (0.05 m) below
the free-end node, its top face center coincides with that node, and the
point-to-frame attachment starts with zero position violation. -/
theorem C9_cylinder_top_face_alignment :
    cylinder.shape = BodyShape.cylinder (2/100) (1/10) 1000 ∧
    cylinder.pos = (nodePosition (N_nodes - 1)).add ⟨0, -((1/10) / 2), 0⟩ ∧
    topFaceCenter cylinder = nodePosition (N_nodes - 1) ∧
    linkViolation (nodePosition (N_nodes - 1)) (topFaceCenter cylinder) = ChVector.zero ∧
    constraint_cyl ∈ builtSystem.links ∧
    (builtSystem.mesh.nodes.getD constraint_cyl.node ⟨ChVector.zero, ChVector.zero⟩).pos =
      nodePosition (N_nodes - 1) := by
  decide

/-- C10: the ground attachment of node 0 is a point-to-frame link to the
fixed truss that constrains exactly the node's 3 position DOFs (global
indices 0,1,2); its 3 direction DOFs (global 3,4,5) appear in no link's
constrained set, whereas fixing the node outright would constrain all 6. -/
theorem C10_ground_link_constrains_only_position :
    constraint_pos ∈ builtSystem.links ∧
    constraint_pos.node = 0 ∧
    (builtSystem.bodies.getD constraint_pos.body truss).bodyFixed = true ∧
    linkConstrainedGlobalDofs builtSystem constraint_pos = [0, 1, 2] ∧
    posDofIdxs.length = 3 ∧
    (dirDofIdxs.all (fun d =>
      decide ((builtSystem.dofOffsets.getD 0 0 + d) ∉ constrainedGlobalDofs builtSystem))
      = true) ∧
    fixedNodeGlobalDofs builtSystem 0 = [0, 1, 2, 3, 4, 5] := by
  decide
